import Mathlib

/-
Verification of the Data-extracter backend (src/backend/app.py).

The backend is a small HTTP service with a fixed schema catalog
(SCHEMA_DICT), a row synthesizer (generate_dummy_data) driven by
case-insensitive substring matching on column names, and a CSV download
endpoint (download_csv).

Embedding conventions:
  - Python strings are Lean Strings; the catalog and the substring
    patterns are ASCII, so Char.toLower models str.lower.
  - Randomness (random.randint, random.uniform, random.choice) and the
    faker provider are modelled as an oracle structure Env.  Each cell of
    the generated table consumes fresh oracle values, so
    generate_dummy_data receives a family of environments indexed by
    (row index, column name).  Env.Valid states the contracts of the
    random primitives (randint and uniform land in the requested closed
    interval, choice picks a member of its list).
  - Python floats are modelled as rationals; round(x, n) is modelled
    exactly (banker rounding, round-half-to-even, as in Python 3).
  - A Python dict built by inserting each requested column once, in
    order, is modelled as the association list in insertion order.
  - The Flask response of download_csv is an Except value: the 404 JSON
    error payload on the left, the CSV attachment on the right.  The
    error branch carries no rows and is the only branch that does not
    call generate_dummy_data.
-/

/-- Boolean test that the first list is a prefix of the second,
written by recursion so that it evaluates in the kernel. -/
def charsStartWith : List Char → List Char → Bool
  | [], _ => true
  | _ :: _, [] => false
  | a :: as, b :: bs => a == b && charsStartWith as bs

/-- Boolean substring test on character lists: some suffix of the second
list starts with the first list. -/
def charsHaveSub (pat : List Char) : List Char → Bool
  | [] => charsStartWith pat []
  | b :: bs => charsStartWith pat (b :: bs) || charsHaveSub pat bs

/-- Model of Python str.lower for the ASCII column names of the catalog. -/
def pyLower (s : String) : String := ⟨s.data.map Char.toLower⟩

/-- Model of the Python membership test `pat in s` on strings. -/
def pyContains (pat s : String) : Bool := charsHaveSub pat.data s.data

/-- Values a generated cell can hold: Python int, float (modelled as a
rational), str, or bool. -/
inductive Value where
  | int : Int → Value
  | float : ℚ → Value
  | str : String → Value
  | bool : Bool → Value
deriving DecidableEq

/-- Oracle for one cell: the random primitives and the faker provider
used by generate_dummy_data.  Each field models one external call. -/
structure Env where
  randint : Int → Int → Int
  uniform : ℚ → ℚ → ℚ
  choice : List String → String
  randbool : Bool
  name : String
  catch_phrase : String
  first_name : String
  last_name : String
  email : String
  phone_number : String
  street_address : String
  city : String
  country : String
  job : String
  sentence : Nat → String
  date_this_year : String
  date_this_month : String
  nowPlusDays : Int → String

/-- Contracts of the random primitives: randint lo hi and
uniform lo hi land in the closed interval [lo, hi], and choice picks an
element of a nonempty list. -/
def Env.Valid (e : Env) : Prop :=
  (∀ lo hi : Int, lo ≤ hi → lo ≤ e.randint lo hi ∧ e.randint lo hi ≤ hi) ∧
  (∀ lo hi : ℚ, lo ≤ hi → lo ≤ e.uniform lo hi ∧ e.uniform lo hi ≤ hi) ∧
  (∀ l : List String, l ≠ [] → e.choice l ∈ l)

/-- Round a rational to the nearest integer, ties to even: the rounding
used by Python round. -/
def roundHalfEven (q : ℚ) : ℤ :=
  let f := ⌊q⌋
  let frac := q - f
  if frac < 1 / 2 then f
  else if 1 / 2 < frac then f + 1
  else if f % 2 = 0 then f else f + 1

/-- Model of Python round(x, nd) on our rational floats. -/
def roundTo (nd : Nat) (q : ℚ) : ℚ :=
  (roundHalfEven (q * 10 ^ nd) : ℚ) / 10 ^ nd

/-- STATUSES list of generate_dummy_data. -/
def STATUSES : List String := ["Pending", "Shipped", "Delivered", "Cancelled"]

/-- PAYMENT_METHODS list of generate_dummy_data. -/
def PAYMENT_METHODS : List String := ["Credit Card", "PayPal", "Transfer"]

/-- CATEGORIES list of generate_dummy_data. -/
def CATEGORIES : List String := ["Electronics", "Books", "Clothing", "Home Goods"]

/-- One cell of generate_dummy_data: the full if/elif classification
chain of app.py lines 41 to 111, for row index i (1-based), column col,
primary-key name pk_name, reading randomness and fake values from env. -/
def genValue (env : Env) (pk_name : String) (i : Nat) (col : String) : Value :=
  let col_lower := pyLower col
  if pyContains "id" col_lower then
    if col = pk_name then .int i
    else if pyContains "customerid" col_lower then .int (env.randint 1001 1100)
    else if pyContains "productid" col_lower then .int (env.randint 2001 2100)
    else if pyContains "orderid" col_lower then .int (env.randint 3001 3100)
    else .int (env.randint 100 999)
  else if pyContains "name" col_lower || pyContains "title" col_lower then
    .str (if pyContains "product" col_lower || pyContains "company" col_lower then
      env.catch_phrase else env.name)
  else if pyContains "first" col_lower then .str env.first_name
  else if pyContains "last" col_lower then .str env.last_name
  else if pyContains "email" col_lower then .str env.email
  else if pyContains "phone" col_lower then .str env.phone_number
  else if pyContains "address" col_lower || pyContains "location" col_lower then
    .str env.street_address
  else if pyContains "city" col_lower then .str env.city
  else if pyContains "country" col_lower then .str env.country
  else if pyContains "position" col_lower then .str env.job
  else if pyContains "department" col_lower then
    .str (env.choice ["Sales", "Marketing", "IT", "HR", "Finance"])
  else if pyContains "description" col_lower || pyContains "comment" col_lower then
    .str (env.sentence 6)
  else if pyContains "age" col_lower then .int (env.randint 18 65)
  else if pyContains "price" col_lower || pyContains "amount" col_lower ||
      pyContains "cost" col_lower then
    .float (roundTo 2 (env.uniform 5 500))
  else if pyContains "salary" col_lower then .int (env.randint 40000 150000)
  else if pyContains "stock" col_lower || pyContains "quantity" col_lower then
    .int (env.randint 0 1000)
  else if pyContains "rating" col_lower then .float (roundTo 1 (env.uniform 1 5))
  else if pyContains "count" col_lower then .int (env.randint 1 200)
  else if pyContains "date" col_lower then
    if pyContains "join" col_lower || pyContains "hire" col_lower then
      .str env.date_this_year
    else if pyContains "delivery" col_lower then
      .str (env.nowPlusDays (env.randint 1 10))
    else if pyContains "expiry" col_lower then
      .str (env.nowPlusDays (env.randint 30 365))
    else .str env.date_this_month
  else if pyContains "status" col_lower then .str (env.choice STATUSES)
  else if pyContains "method" col_lower then .str (env.choice PAYMENT_METHODS)
  else if pyContains "category" col_lower then .str (env.choice CATEGORIES)
  else if pyContains "active" col_lower then .bool env.randbool
  else .str "N/A"

/-- generate_dummy_data of app.py: for each 1-based row index i in
range(1, num_rows + 1) build the row dict by inserting, for each
requested column in order, the value of the classification chain.
The Python default num_rows=10 is passed explicitly by the one caller.
table_name is accepted and unused, as in the source. -/
def generate_dummy_data (envs : Nat → String → Env) (table_name : String)
    (columns : List String) (num_rows : Nat) : List (List (String × Value)) :=
  let pk_name := columns.headD "ID"
  (List.range num_rows).map fun k =>
    columns.map fun col => (col, genValue (envs (k + 1) col) pk_name (k + 1) col)

/-- SCHEMA_DICT of app.py: the fixed catalog, an insertion-ordered
mapping from table name to its ordered column list. -/
def SCHEMA_DICT : List (String × List String) :=
  [("Customers", ["CustomerID", "FirstName", "LastName", "Email", "Phone", "Age",
      "Address", "City", "Country", "JoinDate"]),
   ("Products", ["ProductID", "ProductName", "Category", "Price", "StockQuantity",
      "SupplierID", "Manufacturer", "Weight", "ExpiryDate", "IsActive"]),
   ("Orders", ["OrderID", "CustomerID", "OrderDate", "TotalAmount", "ShippingAddress",
      "City", "PostalCode", "Status", "PaymentMethod", "DeliveryDate"]),
   ("Employees", ["EmployeeID", "FirstName", "LastName", "Position", "Department",
      "Salary", "HireDate", "Email", "Phone", "ManagerID"]),
   ("Suppliers", ["SupplierID", "CompanyName", "ContactName", "Address", "City",
      "Country", "Phone", "Email", "ProductCategory", "Rating"]),
   ("Categories", ["CategoryID", "CategoryName", "Description", "ParentCategoryID",
      "CreatedDate", "UpdatedDate", "ImageURL", "SortOrder", "IsActive", "ProductCount"]),
   ("Payments", ["PaymentID", "OrderID", "PaymentDate", "Amount", "PaymentMethod",
      "TransactionID", "Status", "CardLastFour", "Currency", "RefundAmount"]),
   ("Inventory", ["InventoryID", "ProductID", "WarehouseID", "Quantity", "MinStockLevel",
      "ReorderPoint", "LastUpdated", "Location", "BatchNumber", "ExpiryDate"]),
   ("Reviews", ["ReviewID", "ProductID", "CustomerID", "Rating", "Comment",
      "ReviewDate", "HelpfulCount", "VerifiedPurchase", "Title", "Response"]),
   ("Shipments", ["ShipmentID", "OrderID", "Carrier", "TrackingNumber", "ShipDate",
      "EstimatedDelivery", "ActualDelivery", "ShippingCost", "Status", "DeliveryAddress"])]

/-- Membership lookup in the catalog, modelling
`table_name in SCHEMA_DICT` followed by `SCHEMA_DICT[table_name]`. -/
def schemaLookup (t : String) : Option (List String) :=
  SCHEMA_DICT.lookup t

/-- Double-quote character, the CSV quotechar. -/
def dq : String := String.singleton (Char.ofNat 34)

/-- Apostrophe character, used by the 404 message f-string. -/
def apos : String := String.singleton (Char.ofNat 39)

/-- Field needs CSV quoting when it contains the delimiter, the
quotechar, or a line-terminator character (QUOTE_MINIMAL). -/
def needsQuote (s : String) : Bool :=
  s.data.any fun c =>
    c == ',' || c == Char.ofNat 34 || c == Char.ofNat 10 || c == Char.ofNat 13

/-- Minimal CSV quoting as written by pandas to_csv: quote the field and
double any embedded quotechar. -/
def csvEscape (s : String) : String :=
  if needsQuote s then dq ++ s.replace dq (dq ++ dq) ++ dq else s

/-- Decimal text of a generated float cell, as repr of a Python float
carrying at most two decimal digits. -/
def floatRepr (q : ℚ) : String :=
  let a : ℚ := if q < 0 then -q else q
  let c : ℤ := ⌊a * 100⌋
  let ip : ℤ := c / 100
  let fr : ℤ := c % 100
  let fracStr : String :=
    if fr % 10 = 0 then toString (fr / 10)
    else if fr < 10 then "0" ++ toString fr
    else toString fr
  (if q < 0 then "-" else "") ++ toString ip ++ "." ++ fracStr

/-- Serialization of one cell value in the CSV body. -/
def csvField : Value → String
  | .int n => toString n
  | .float q => floatRepr q
  | .str s => csvEscape s
  | .bool b => if b then "True" else "False"

/-- One CSV record: the row cells in column order, comma separated. -/
def toCsvRow (row : List (String × Value)) : String :=
  String.intercalate "," (row.map fun p => csvField p.2)

/-- CSV records written by df.to_csv(index=False): the header record of
column names followed by one record per generated row. -/
def toCsvLines (columns : List String) (rows : List (List (String × Value))) :
    List String :=
  String.intercalate "," (columns.map csvEscape) :: rows.map toCsvRow

/-- JSON error payload with its HTTP status, as returned for an unknown
table. -/
structure ErrorResponse where
  http_status : Nat
  status : String
  message : String
deriving DecidableEq

/-- CSV attachment as returned by send_file. -/
structure CsvFile where
  download_name : String
  mimetype : String
  lines : List String

/-- Body of the 404 JSON message for an unknown table. -/
def notFoundMessage (t : String) : String :=
  "Table " ++ apos ++ t ++ apos ++ " not found."

/-- download_csv endpoint of app.py: unknown table names short-circuit
to a 404 error payload without generating rows; otherwise the table
columns are fetched, 10 rows are generated, and the CSV attachment is
built. -/
def download_csv (envs : Nat → String → Env) (table_name : String) :
    Except ErrorResponse CsvFile :=
  match schemaLookup table_name with
  | none => .error ⟨404, "error", notFoundMessage table_name⟩
  | some columns =>
      .ok ⟨table_name ++ "_sample_data.csv", "text/csv",
        toCsvLines columns (generate_dummy_data envs table_name columns 10)⟩

/-- Concrete oracle for witnesses: every random primitive returns the
lower end of its range, every fake value is a fixed string. -/
def constEnv : Env where
  randint := fun lo _ => lo
  uniform := fun lo _ => lo
  choice := fun l => l.headD ""
  randbool := true
  name := "Jane Roe"
  catch_phrase := "Robust systems"
  first_name := "Jane"
  last_name := "Roe"
  email := "jane@example.com"
  phone_number := "555-0100"
  street_address := "1 Main St"
  city := "Springfield"
  country := "Norway"
  job := "Engineer"
  sentence := fun _ => "Lorem ipsum dolor sit amet consectetur."
  date_this_year := "2026-01-15"
  date_this_month := "2026-10-05"
  nowPlusDays := fun _ => "2026-10-20"

theorem constEnv_valid : Env.Valid constEnv := by
  refine ⟨fun lo hi h => ⟨le_refl lo, h⟩, fun lo hi h => ⟨le_refl lo, h⟩, ?_⟩
  intro l hl
  cases l with
  | nil => exact absurd rfl hl
  | cons a l => exact List.mem_cons_self a l

/-- Appending on the left distributes over the intercalate accumulator. -/
theorem intercalate_go_append (s : String) (l : List String) (a b : String) :
    String.intercalate.go (a ++ b) s l = a ++ String.intercalate.go b s l := by
  induction l generalizing b with
  | nil => simp [String.intercalate.go]
  | cons c cs ih => simp only [String.intercalate.go, String.append_assoc, ih]

/-- Intercalate on a list of two or more strings peels off the first
string and one separator. -/
theorem intercalate_cons_cons (s a b : String) (l : List String) :
    String.intercalate s (a :: b :: l) =
      a ++ s ++ String.intercalate s (b :: l) := by
  rw [String.intercalate, String.intercalate, String.intercalate.go,
    intercalate_go_append]

/-- generate_dummy_data returns exactly num_rows rows. -/
theorem gen_length (envs : Nat → String → Env) (t : String) (cols : List String)
    (n : Nat) : (generate_dummy_data envs t cols n).length = n := by
  simp [generate_dummy_data]

/-- Keys of a row built by pairing each column with a value are the
columns themselves. -/
theorem map_fst_pairs (cols : List String) (v : String → Value) :
    (cols.map fun c => (c, v c)).map Prod.fst = cols := by
  induction cols with
  | nil => rfl
  | cons a l ih => simp only [List.map_cons, ih]

/-- Every row of generate_dummy_data carries exactly the requested
columns as keys, in the requested order. -/
theorem gen_keys (envs : Nat → String → Env) (t : String) (cols : List String)
    (n : Nat) (r : List (String × Value))
    (hr : r ∈ generate_dummy_data envs t cols n) : r.map Prod.fst = cols := by
  simp only [generate_dummy_data, List.mem_map, List.mem_range] at hr
  obtain ⟨k, -, rfl⟩ := hr
  exact map_fst_pairs cols _

/-- Row k (0-based) of generate_dummy_data, written out cell by cell. -/
theorem gen_getD (envs : Nat → String → Env) (t : String) (cols : List String)
    (n k : Nat) (hk : k < n) :
    (generate_dummy_data envs t cols n).getD k [] =
      cols.map fun col =>
        (col, genValue (envs (k + 1) col) (cols.headD "ID") (k + 1) col) := by
  have hlen : k < ((List.range n).map fun j =>
      cols.map fun col =>
        (col, genValue (envs (j + 1) col) (cols.headD "ID") (j + 1) col)).length := by
    simpa using hk
  simp only [generate_dummy_data]
  rw [List.getD_eq_getElem _ _ hlen, List.getElem_map, List.getElem_range]

/-- A column that contains id (lower-cased) and is the primary-key
column is assigned the 1-based row index. -/
theorem genValue_pk (env : Env) (pk : String) (i : Nat) (col : String)
    (h1 : pyContains "id" (pyLower col) = true) (h2 : col = pk) :
    genValue env pk i col = Value.int i := by
  subst h2
  simp [genValue, h1]

/-- Without an id substring in the column name, the generated cell
depends on neither the primary-key name nor the row index. -/
theorem genValue_no_id_indep (env : Env) (col : String)
    (hid : pyContains "id" (pyLower col) = false)
    (pk pk2 : String) (i j : Nat) :
    genValue env pk i col = genValue env pk2 j col := by
  simp only [genValue, hid]
  simp

/-- roundHalfEven moves its argument by at most one half. -/
theorem roundHalfEven_bounds (q : ℚ) :
    q - 1 / 2 ≤ (roundHalfEven q : ℚ) ∧ (roundHalfEven q : ℚ) ≤ q + 1 / 2 := by
  have h1 : (⌊q⌋ : ℚ) ≤ q := Int.floor_le q
  have h2 : q < ⌊q⌋ + 1 := Int.lt_floor_add_one q
  simp only [roundHalfEven]
  split_ifs with ha hb hc
  · constructor <;> [linarith; linarith]
  · push_cast; constructor <;> [linarith; linarith]
  · have he : q - ⌊q⌋ = 1 / 2 := by linarith
    constructor <;> [linarith; linarith]
  · have he : q - ⌊q⌋ = 1 / 2 := by linarith
    push_cast
    constructor <;> [linarith; linarith]

/-- Every catalog table has a nonempty column list whose first column
contains id after lower-casing. -/
theorem schema_first_col_id :
    ∀ p ∈ SCHEMA_DICT,
      pyContains "id" (pyLower (p.2.headD "ID")) = true ∧ p.2 ≠ [] := by
  decide

/-- Claim C1: for every table in the fixed catalog, generate_dummy_data
on its column list with rowCount 10 returns exactly 10 rows, and each
row is a mapping whose key list is exactly the requested columns in the
requested order. -/
theorem C1_catalog_shape (envs : Nat → String → Env) (t : String)
    (cols : List String) (h : (t, cols) ∈ SCHEMA_DICT) :
    (generate_dummy_data envs t cols 10).length = 10 ∧
      ∀ r ∈ generate_dummy_data envs t cols 10, r.map Prod.fst = cols :=
  ⟨gen_length envs t cols 10, fun r hr => gen_keys envs t cols 10 r hr⟩

/-- Witness for C1 at the Customers table with the constant oracle. -/
theorem C1_catalog_shape_witness :
    (generate_dummy_data (fun _ _ => constEnv) "Customers"
        ["CustomerID", "FirstName", "LastName", "Email", "Phone", "Age",
          "Address", "City", "Country", "JoinDate"] 10).length = 10 ∧
      ∀ r ∈ generate_dummy_data (fun _ _ => constEnv) "Customers"
          ["CustomerID", "FirstName", "LastName", "Email", "Phone", "Age",
            "Address", "City", "Country", "JoinDate"] 10,
        r.map Prod.fst =
          ["CustomerID", "FirstName", "LastName", "Email", "Phone", "Age",
            "Address", "City", "Country", "JoinDate"] :=
  C1_catalog_shape (fun _ _ => constEnv) "Customers" _ (by decide)

/-- Claim C2: for every catalog table and every row index i from 1 to
10, the first (primary-key) cell of the i-th generated row is the first
column name paired with the integer i. -/
theorem C2_pk_is_row_index (envs : Nat → String → Env) (t : String)
    (cols : List String) (h : (t, cols) ∈ SCHEMA_DICT) (i : Nat)
    (h1 : 1 ≤ i) (h2 : i ≤ 10) :
    ((generate_dummy_data envs t cols 10).getD (i - 1) []).head? =
      some (cols.headD "ID", Value.int i) := by
  obtain ⟨hid, hne⟩ := schema_first_col_id (t, cols) h
  have hk : i - 1 < 10 := by omega
  rw [gen_getD envs t cols 10 (i - 1) hk]
  have hi : i - 1 + 1 = i := by omega
  rw [hi]
  cases cols with
  | nil => exact absurd rfl hne
  | cons c0 rest =>
      simp only [List.headD_cons] at hid ⊢
      simp only [List.map_cons, List.head?_cons]
      rw [genValue_pk (envs i c0) c0 i c0 hid rfl]

/-- Witness for C2: row 3 of the Customers table has CustomerID 3. -/
theorem C2_pk_is_row_index_witness :
    ((generate_dummy_data (fun _ _ => constEnv) "Customers"
        ["CustomerID", "FirstName", "LastName", "Email", "Phone", "Age",
          "Address", "City", "Country", "JoinDate"] 10).getD (3 - 1) []).head? =
      some (("CustomerID" : String), Value.int 3) := by
  have h := C2_pk_is_row_index (fun _ _ => constEnv) "Customers"
    ["CustomerID", "FirstName", "LastName", "Email", "Phone", "Age",
      "Address", "City", "Country", "JoinDate"] (by decide) 3 (by decide) (by decide)
  simpa using h

/-- Claim C7: generate_dummy_data is total on an empty column list: for
any row count n it returns n rows, each an empty mapping. -/
theorem C7_empty_columns (envs : Nat → String → Env) (t : String) (n : Nat) :
    (generate_dummy_data envs t [] n).length = n ∧
      ∀ r ∈ generate_dummy_data envs t [] n, r = [] := by
  refine ⟨gen_length envs t [] n, ?_⟩
  intro r hr
  simp only [generate_dummy_data, List.map_nil, List.mem_map, List.mem_range] at hr
  obtain ⟨k, -, rfl⟩ := hr
  rfl

/-- Claim C8: two runs with identical inputs but arbitrary different
oracle streams produce the same number of rows, and any two rows of the
two runs carry the same key list. -/
theorem C8_shape_idempotent (envs1 envs2 : Nat → String → Env) (t : String)
    (cols : List String) (n : Nat) :
    (generate_dummy_data envs1 t cols n).length =
        (generate_dummy_data envs2 t cols n).length ∧
      ∀ r1 ∈ generate_dummy_data envs1 t cols n,
        ∀ r2 ∈ generate_dummy_data envs2 t cols n,
          r1.map Prod.fst = r2.map Prod.fst := by
  refine ⟨by rw [gen_length, gen_length], ?_⟩
  intro r1 h1 r2 h2
  rw [gen_keys envs1 t cols n r1 h1, gen_keys envs2 t cols n r2 h2]

/-- Claim C3: for every table name absent from the catalog, the CSV
download endpoint returns the 404 JSON error payload
status error, message Table (apostrophe)name(apostrophe) not found.,
and takes the early-return branch that never calls generate_dummy_data,
so no row data is produced. -/
theorem C3_unknown_table_404 (envs : Nat → String → Env) (t : String)
    (h : schemaLookup t = none) :
    download_csv envs t = Except.error ⟨404, "error", notFoundMessage t⟩ := by
  simp [download_csv, h]

/-- Witness for C3 at the unknown table name Foo. -/
theorem C3_unknown_table_404_witness :
    download_csv (fun _ _ => constEnv) "Foo" =
      Except.error ⟨404, "error", notFoundMessage "Foo"⟩ :=
  C3_unknown_table_404 (fun _ _ => constEnv) "Foo" (by decide)

/-- Claim C4: the CSV export for table Customers consists of the exact
header line CustomerID,FirstName,LastName,Email,Phone,Age,Address,City,
Country,JoinDate followed by exactly 10 data records (11 records in
total), and data record k (for k from 1 to 10) begins with the
CustomerID field holding the value k, whatever the oracle streams. -/
theorem C4_customers_csv (envs : Nat → String → Env) (k : Nat)
    (h1 : 1 ≤ k) (h2 : k ≤ 10) :
    ∃ (f : CsvFile) (rest : String),
      download_csv envs "Customers" = Except.ok f ∧
      f.lines.headD "" =
        "CustomerID,FirstName,LastName,Email,Phone,Age,Address,City,Country,JoinDate" ∧
      f.lines.length = 11 ∧
      f.lines.getD k "" = toString k ++ "," ++ rest := by
  have hl : schemaLookup "Customers" =
      some ["CustomerID", "FirstName", "LastName", "Email", "Phone", "Age",
        "Address", "City", "Country", "JoinDate"] := by decide
  have hline : ∃ rest : String,
      (toCsvLines
          ["CustomerID", "FirstName", "LastName", "Email", "Phone", "Age",
            "Address", "City", "Country", "JoinDate"]
          (generate_dummy_data envs "Customers"
            ["CustomerID", "FirstName", "LastName", "Email", "Phone", "Age",
              "Address", "City", "Country", "JoinDate"] 10)).getD k "" =
        toString k ++ "," ++ rest := by
    obtain ⟨k0, rfl⟩ : ∃ k0, k = k0 + 1 := ⟨k - 1, by omega⟩
    have hk0 : k0 < 10 := by omega
    have hklen : k0 < ((generate_dummy_data envs "Customers"
        ["CustomerID", "FirstName", "LastName", "Email", "Phone", "Age",
          "Address", "City", "Country", "JoinDate"] 10).map toCsvRow).length := by
      rw [List.length_map, gen_length]; exact hk0
    simp only [toCsvLines, List.getD_cons_succ]
    rw [List.getD_eq_getElem _ _ hklen, List.getElem_map,
      ← List.getD_eq_getElem _ [] (by rw [gen_length]; exact hk0),
      gen_getD _ _ _ _ _ hk0]
    simp only [List.map_cons, List.map_nil, List.headD_cons, toCsvRow]
    rw [genValue_pk (envs (k0 + 1) "CustomerID") "CustomerID" (k0 + 1)
      "CustomerID" (by decide) rfl]
    rw [intercalate_cons_cons]
    exact ⟨_, rfl⟩
  obtain ⟨rest, hrest⟩ := hline
  refine ⟨_, rest, by rw [download_csv, hl], ?_, ?_, hrest⟩
  · simp only [toCsvLines, List.headD_cons]
    decide
  · simp [toCsvLines, gen_length]

/-- Witness for C4 at data record 3 with the constant oracle. -/
theorem C4_customers_csv_witness :
    ∃ (f : CsvFile) (rest : String),
      download_csv (fun _ _ => constEnv) "Customers" = Except.ok f ∧
      f.lines.headD "" =
        "CustomerID,FirstName,LastName,Email,Phone,Age,Address,City,Country,JoinDate" ∧
      f.lines.length = 11 ∧
      f.lines.getD 3 "" = toString 3 ++ "," ++ rest :=
  C4_customers_csv (fun _ _ => constEnv) 3 (by decide) (by decide)

/-- A column matching the price/amount/cost rule and none of the
earlier rules is assigned round(uniform(5.0, 500.0), 2). -/
theorem genValue_price (env : Env) (pk : String) (i : Nat) (col : String)
    (e01 : pyContains "id" (pyLower col) = false)
    (e02 : pyContains "name" (pyLower col) = false)
    (e03 : pyContains "title" (pyLower col) = false)
    (e04 : pyContains "first" (pyLower col) = false)
    (e05 : pyContains "last" (pyLower col) = false)
    (e06 : pyContains "email" (pyLower col) = false)
    (e07 : pyContains "phone" (pyLower col) = false)
    (e08 : pyContains "address" (pyLower col) = false)
    (e09 : pyContains "location" (pyLower col) = false)
    (e10 : pyContains "city" (pyLower col) = false)
    (e11 : pyContains "country" (pyLower col) = false)
    (e12 : pyContains "position" (pyLower col) = false)
    (e13 : pyContains "department" (pyLower col) = false)
    (e14 : pyContains "description" (pyLower col) = false)
    (e15 : pyContains "comment" (pyLower col) = false)
    (e16 : pyContains "age" (pyLower col) = false)
    (hpos : (pyContains "price" (pyLower col) || pyContains "amount" (pyLower col) ||
      pyContains "cost" (pyLower col)) = true) :
    genValue env pk i col = Value.float (roundTo 2 (env.uniform 5 500)) := by
  simp only [Bool.or_eq_true] at hpos
  simp [genValue, e01, e02, e03, e04, e05, e06, e07, e08, e09, e10, e11, e12,
    e13, e14, e15, e16, hpos]

/-- A column matching the age rule and none of the earlier rules is
assigned randint(18, 65). -/
theorem genValue_age (env : Env) (pk : String) (i : Nat) (col : String)
    (e01 : pyContains "id" (pyLower col) = false)
    (e02 : pyContains "name" (pyLower col) = false)
    (e03 : pyContains "title" (pyLower col) = false)
    (e04 : pyContains "first" (pyLower col) = false)
    (e05 : pyContains "last" (pyLower col) = false)
    (e06 : pyContains "email" (pyLower col) = false)
    (e07 : pyContains "phone" (pyLower col) = false)
    (e08 : pyContains "address" (pyLower col) = false)
    (e09 : pyContains "location" (pyLower col) = false)
    (e10 : pyContains "city" (pyLower col) = false)
    (e11 : pyContains "country" (pyLower col) = false)
    (e12 : pyContains "position" (pyLower col) = false)
    (e13 : pyContains "department" (pyLower col) = false)
    (e14 : pyContains "description" (pyLower col) = false)
    (e15 : pyContains "comment" (pyLower col) = false)
    (hage : pyContains "age" (pyLower col) = true) :
    genValue env pk i col = Value.int (env.randint 18 65) := by
  simp [genValue, e01, e02, e03, e04, e05, e06, e07, e08, e09, e10, e11, e12,
    e13, e14, e15, hage]

/-- round(x, 2) of a value in [5, 500] stays in [5, 500] and carries at
most two decimal digits. -/
theorem roundTo2_mem (x : ℚ) (hl : 5 ≤ x) (hr : x ≤ 500) :
    5 ≤ roundTo 2 x ∧ roundTo 2 x ≤ 500 ∧ (roundTo 2 x * 100).den = 1 := by
  obtain ⟨hb1, hb2⟩ := roundHalfEven_bounds (x * 100)
  have h500 : (500 : ℤ) ≤ roundHalfEven (x * 100) := by
    have h1 : (499 : ℚ) < (roundHalfEven (x * 100) : ℚ) := by linarith
    have h2 : (499 : ℤ) < roundHalfEven (x * 100) := by exact_mod_cast h1
    omega
  have h50000 : roundHalfEven (x * 100) ≤ 50000 := by
    have h1 : (roundHalfEven (x * 100) : ℚ) < 50001 := by linarith
    have h2 : roundHalfEven (x * 100) < (50001 : ℤ) := by exact_mod_cast h1
    omega
  have hc1 : (500 : ℚ) ≤ (roundHalfEven (x * 100) : ℚ) := by exact_mod_cast h500
  have hc2 : (roundHalfEven (x * 100) : ℚ) ≤ 50000 := by exact_mod_cast h50000
  have hpow : ((10 : ℚ) ^ (2 : Nat)) = 100 := by norm_num
  refine ⟨?_, ?_, ?_⟩
  · simp only [roundTo, hpow]
    linarith
  · simp only [roundTo, hpow]
    linarith
  · simp only [roundTo, hpow]
    rw [div_mul_cancel₀ _ (by norm_num : (100 : ℚ) ≠ 0), Rat.den_intCast]

/-- Claim C6: every column classified by the price/amount/cost rule
(matching none of the earlier rules) receives, under the randomness
contract, a float in the closed interval [5.0, 500.0] with at most two
decimal digits, for every row and every run. -/
theorem C6_price_float_bounds (env : Env) (hv : Env.Valid env) (pk : String)
    (i : Nat) (col : String)
    (e01 : pyContains "id" (pyLower col) = false)
    (e02 : pyContains "name" (pyLower col) = false)
    (e03 : pyContains "title" (pyLower col) = false)
    (e04 : pyContains "first" (pyLower col) = false)
    (e05 : pyContains "last" (pyLower col) = false)
    (e06 : pyContains "email" (pyLower col) = false)
    (e07 : pyContains "phone" (pyLower col) = false)
    (e08 : pyContains "address" (pyLower col) = false)
    (e09 : pyContains "location" (pyLower col) = false)
    (e10 : pyContains "city" (pyLower col) = false)
    (e11 : pyContains "country" (pyLower col) = false)
    (e12 : pyContains "position" (pyLower col) = false)
    (e13 : pyContains "department" (pyLower col) = false)
    (e14 : pyContains "description" (pyLower col) = false)
    (e15 : pyContains "comment" (pyLower col) = false)
    (e16 : pyContains "age" (pyLower col) = false)
    (hpos : (pyContains "price" (pyLower col) || pyContains "amount" (pyLower col) ||
      pyContains "cost" (pyLower col)) = true) :
    ∃ q : ℚ, genValue env pk i col = Value.float q ∧
      5 ≤ q ∧ q ≤ 500 ∧ (q * 100).den = 1 := by
  have hval := genValue_price env pk i col e01 e02 e03 e04 e05 e06 e07 e08 e09
    e10 e11 e12 e13 e14 e15 e16 hpos
  obtain ⟨hu1, hu2⟩ := hv.2.1 5 500 (by norm_num)
  obtain ⟨hq1, hq2, hq3⟩ := roundTo2_mem (env.uniform 5 500) hu1 hu2
  exact ⟨_, hval, hq1, hq2, hq3⟩

/-- Witness for C6 at the column Price with the constant oracle. -/
theorem C6_price_float_bounds_witness :
    ∃ q : ℚ, genValue constEnv "ProductID" 1 "Price" = Value.float q ∧
      5 ≤ q ∧ q ≤ 500 ∧ (q * 100).den = 1 :=
  C6_price_float_bounds constEnv constEnv_valid "ProductID" 1 "Price"
    (by decide) (by decide) (by decide) (by decide) (by decide) (by decide)
    (by decide) (by decide) (by decide) (by decide) (by decide) (by decide)
    (by decide) (by decide) (by decide) (by decide) (by decide)

/-- Claim C10: every column whose lower-cased name contains age and
matches none of the earlier rules receives, under the randomness
contract, a random integer in [18, 65]; the catalog column ImageURL of
table Categories is such a column, so it receives that integer, not a
URL string. -/
theorem C10_age_rule (env : Env) (hv : Env.Valid env) (pk : String)
    (i : Nat) (col : String)
    (e01 : pyContains "id" (pyLower col) = false)
    (e02 : pyContains "name" (pyLower col) = false)
    (e03 : pyContains "title" (pyLower col) = false)
    (e04 : pyContains "first" (pyLower col) = false)
    (e05 : pyContains "last" (pyLower col) = false)
    (e06 : pyContains "email" (pyLower col) = false)
    (e07 : pyContains "phone" (pyLower col) = false)
    (e08 : pyContains "address" (pyLower col) = false)
    (e09 : pyContains "location" (pyLower col) = false)
    (e10 : pyContains "city" (pyLower col) = false)
    (e11 : pyContains "country" (pyLower col) = false)
    (e12 : pyContains "position" (pyLower col) = false)
    (e13 : pyContains "department" (pyLower col) = false)
    (e14 : pyContains "description" (pyLower col) = false)
    (e15 : pyContains "comment" (pyLower col) = false)
    (hage : pyContains "age" (pyLower col) = true) :
    (genValue env pk i col = Value.int (env.randint 18 65) ∧
      18 ≤ env.randint 18 65 ∧ env.randint 18 65 ≤ 65) ∧
    (genValue env pk i "ImageURL" = Value.int (env.randint 18 65) ∧
      "ImageURL" ∈ (schemaLookup "Categories").getD []) := by
  obtain ⟨hr1, hr2⟩ := hv.1 18 65 (by norm_num)
  refine ⟨⟨genValue_age env pk i col e01 e02 e03 e04 e05 e06 e07 e08 e09 e10
    e11 e12 e13 e14 e15 hage, hr1, hr2⟩, ?_, by decide⟩
  exact genValue_age env pk i "ImageURL" (by decide) (by decide) (by decide)
    (by decide) (by decide) (by decide) (by decide) (by decide) (by decide)
    (by decide) (by decide) (by decide) (by decide) (by decide) (by decide)
    (by decide)

/-- Witness for C10 at the column ImageURL with the constant oracle. -/
theorem C10_age_rule_witness :
    (genValue constEnv "CategoryID" 4 "ImageURL" = Value.int (constEnv.randint 18 65) ∧
      18 ≤ constEnv.randint 18 65 ∧ constEnv.randint 18 65 ≤ 65) ∧
    (genValue constEnv "CategoryID" 4 "ImageURL" = Value.int (constEnv.randint 18 65) ∧
      "ImageURL" ∈ (schemaLookup "Categories").getD []) :=
  C10_age_rule constEnv constEnv_valid "CategoryID" 4 "ImageURL"
    (by decide) (by decide) (by decide) (by decide) (by decide) (by decide)
    (by decide) (by decide) (by decide) (by decide) (by decide) (by decide)
    (by decide) (by decide) (by decide) (by decide)

/-- Claim C5 (counterexample): the claim asserts that any non-primary-key
column whose lower-cased name contains productid receives a random
integer in [2001, 2100].  The column XCustomerIDProductID contains
productid, differs from the primary key, and the oracle is valid, yet
the cell is generated by the customerid sub-rule, which is checked
first, and holds 1001, outside [2001, 2100]. -/
theorem C5_counterexample :
    Env.Valid constEnv ∧
    pyContains "productid" (pyLower "XCustomerIDProductID") = true ∧
    "XCustomerIDProductID" ≠ "ID" ∧
    genValue constEnv "ID" 1 "XCustomerIDProductID" = Value.int 1001 ∧
    ¬ (2001 ≤ (1001 : Int) ∧ (1001 : Int) ≤ 2100) :=
  ⟨constEnv_valid, by decide, by decide, by decide, by decide⟩

/-- Claim C5 (amended): classification is a first-match-wins priority
list; any column whose lower-cased name contains id gets an integer
from the id rule regardless of any other keyword in its name, and a
non-primary-key column whose lower-cased name contains productid and
does not contain customerid receives a random integer in [2001, 2100]. -/
theorem C5_id_rule_priority (env : Env) (hv : Env.Valid env) (pk : String)
    (i : Nat) (col : String)
    (hid : pyContains "id" (pyLower col) = true) :
    (∃ n : Int, genValue env pk i col = Value.int n) ∧
    (col ≠ pk → pyContains "productid" (pyLower col) = true →
      pyContains "customerid" (pyLower col) = false →
      genValue env pk i col = Value.int (env.randint 2001 2100) ∧
      2001 ≤ env.randint 2001 2100 ∧ env.randint 2001 2100 ≤ 2100) := by
  constructor
  · simp only [genValue, hid, if_true]
    split_ifs <;> exact ⟨_, rfl⟩
  · intro hnpk hprod hcust
    obtain ⟨hr1, hr2⟩ := hv.1 2001 2100 (by norm_num)
    refine ⟨?_, hr1, hr2⟩
    simp [genValue, hid, hnpk, hprod, hcust]

/-- Witness for the amended C5 at the non-primary-key column ProductID
of table Inventory with the constant oracle. -/
theorem C5_id_rule_priority_witness :
    (∃ n : Int, genValue constEnv "InventoryID" 2 "ProductID" = Value.int n) ∧
    ("ProductID" ≠ "InventoryID" →
      pyContains "productid" (pyLower "ProductID") = true →
      pyContains "customerid" (pyLower "ProductID") = false →
      genValue constEnv "InventoryID" 2 "ProductID" =
        Value.int (constEnv.randint 2001 2100) ∧
      2001 ≤ constEnv.randint 2001 2100 ∧ constEnv.randint 2001 2100 ≤ 2100) :=
  C5_id_rule_priority constEnv constEnv_valid "InventoryID" 2 "ProductID"
    (by decide)

/-- Claim C9: when the first column of the supplied column list does not
contain id (case-insensitive), the primary-key assignment never fires:
the value generated for that column depends on neither the primary-key
name nor the row index, and the first cell of every generated row holds
the value the later rules produce, here written with a dummy primary-key
name and row index 0. -/
theorem C9_no_id_no_pk_assignment (env : Env) (cols : List String)
    (h0 : cols ≠ [])
    (hid : pyContains "id" (pyLower (cols.headD "ID")) = false) :
    (∀ pk pk2 : String, ∀ i j : Nat,
      genValue env pk i (cols.headD "ID") = genValue env pk2 j (cols.headD "ID")) ∧
    (∀ (envs : Nat → String → Env) (t : String) (n k : Nat), k < n →
      ((generate_dummy_data envs t cols n).getD k []).head? =
        some (cols.headD "ID",
          genValue (envs (k + 1) (cols.headD "ID")) "" 0 (cols.headD "ID"))) := by
  refine ⟨fun pk pk2 i j => genValue_no_id_indep env _ hid pk pk2 i j, ?_⟩
  intro envs t n k hk
  rw [gen_getD envs t cols n k hk]
  cases cols with
  | nil => exact absurd rfl h0
  | cons c0 rest =>
      simp only [List.headD_cons] at hid ⊢
      simp only [List.map_cons, List.head?_cons]
      rw [genValue_no_id_indep (envs (k + 1) c0) c0 hid c0 "" (k + 1) 0]

/-- Witness for C9 at a two-column list headed by Status. -/
theorem C9_no_id_no_pk_assignment_witness :
    (∀ pk pk2 : String, ∀ i j : Nat,
      genValue constEnv pk i (["Status", "Weight"].headD "ID") =
        genValue constEnv pk2 j (["Status", "Weight"].headD "ID")) ∧
    (∀ (envs : Nat → String → Env) (t : String) (n k : Nat), k < n →
      ((generate_dummy_data envs t ["Status", "Weight"] n).getD k []).head? =
        some ((["Status", "Weight"] : List String).headD "ID",
          genValue (envs (k + 1) (["Status", "Weight"].headD "ID")) "" 0
            (["Status", "Weight"].headD "ID"))) :=
  C9_no_id_no_pk_assignment constEnv ["Status", "Weight"] (by decide) (by decide)
